import Mathlib

/-!
Verification of the connection-lifecycle wrapper of the lsst-dm/legacy-db
repository against its natural-language specification.

The development shallowly embeds the Python sources:

* `DbPy` — `src/python/lsst/db/db.py` (class `Db` and its `DbException`).
  The MySQLdb driver is an external collaborator; where a claim is about the
  wrapper's reaction to driver outcomes, the driver's responses are explicit
  parameters (`ConnectOutcome`, `PingResult`, `ExecResult`).  Where a claim is
  about the schema-management helpers over a live, healthy server, the driver
  together with the MySQL server is modelled operationally (`Server`,
  `runCmd`), with the driver error numbers taken from db.py itself
  (lines 235, 238-241).
* `DbServ` — `src/python/lsst/dbserv/db.py` (the older variant of the same
  wrapper, whose `_execCommand` retries by calling itself recursively).
* `Pool` — `src/python/lsst/db/dbPool.py`.
* `Helper` — `src/python/lsst/db/testHelper.py` (`loadSqlScript`).
-/

namespace DbPy

/-! ## Error codes: class `DbException`, db.py lines 57-72 -/

def CANT_CONNECT_TO_DB : Nat := 1500
def CANT_EXEC_SCRIPT : Nat := 1505
def DB_EXISTS : Nat := 1510
def DB_DOES_NOT_EXIST : Nat := 1515
def INVALID_DB_NAME : Nat := 1520
def INVALID_OPT_FILE : Nat := 1522
def MISSING_CON_INFO : Nat := 1525
def SERVER_CONNECT : Nat := 1530
def SERVER_DISCONN : Nat := 1535
def SERVER_ERROR : Nat := 1540
def NO_DB_SELECTED : Nat := 1545
def NOT_CONNECTED : Nat := 1550
def TB_DOES_NOT_EXIST : Nat := 1555
def TB_EXISTS : Nat := 1560
def SERVER_WARNING : Nat := 1900
def INTERNAL : Nat := 9999

/-- `DbException(errCode, *messages)` (db.py lines 93-102): an error code plus
a list of ancillary messages. -/
structure DbErr where
  errCode : Nat
  msgs : List String
deriving DecidableEq, Repr

/-- Error code of a failed computation, `none` on success. -/
def errCodeOf {α : Type} : Except DbErr α → Option Nat
  | .error e => some e.errCode
  | .ok _ => none

/-! ## Connect-retry state machine: `Db.connect` / `Db._tryConnect`,
db.py lines 256-308.

The MySQLdb driver's behaviour is an oracle `Nat → ConnectOutcome` giving, for
the k-th underlying `MySQLdb.connect` attempt of this call, either success,
a `MySQLdb.Error` with its error number and message (this also covers a
failing `select_db`, caught by the same `except` clause), or a
`MySQLdb.Warning`. -/

/-- MySQL connection-related error numbers, db.py line 235
(`self._mysqlConnErrors = [2002, 2003, 2006, 2013]`). -/
def mysqlConnErrors : List Int := [2002, 2003, 2006, 2013]

/-- Driver outcome of one underlying connect attempt. -/
inductive ConnectOutcome
  | ok
  | err (code : Int) (msg : String)
  | warn (msg : String)
deriving DecidableEq, Repr

/-- Whether a driver outcome is a connection-class `MySQLdb.Error`. -/
def connClassErr : ConnectOutcome → Bool
  | .err c _ => decide (c ∈ mysqlConnErrors)
  | _ => false

/-- `Db._tryConnect` (db.py lines 276-308) as a function of the driver outcome
of this attempt: returns `true` on success (the handle is stored), `false` on
a recoverable (connection-class) error while attempts remain
(`e[0] in self._mysqlConnErrors and (self._attemptNo < self._attemptMaxNo or
self._attemptMaxNo == 1)`, line 291-292), and raises `SERVER_CONNECT`
otherwise; a `MySQLdb.Warning` raises `SERVER_WARNING` (lines 296-298). -/
def tryConnectR (attemptNo attemptMaxNo : Nat) (out : ConnectOutcome) :
    Except DbErr Bool :=
  match out with
  | .ok => .ok true
  | .err c m =>
      if c ∈ mysqlConnErrors ∧ (attemptNo < attemptMaxNo ∨ attemptMaxNo = 1) then
        .ok false
      else
        .error ⟨SERVER_CONNECT, [toString c ++ ": " ++ m]⟩
  | .warn m => .error ⟨SERVER_WARNING, [m]⟩

theorem tryConnectR_ok_false {a m : Nat} {out : ConnectOutcome}
    (h : tryConnectR a m out = .ok false) : a < m ∨ m = 1 := by
  cases out with
  | ok => simp [tryConnectR] at h
  | err c msg =>
      by_cases hcond : c ∈ mysqlConnErrors ∧ (a < m ∨ m = 1)
      · exact hcond.2
      · simp [tryConnectR, hcond] at h
  | warn msg => simp [tryConnectR] at h

/-- Observable result of one `Db.connect` call: the returned-or-raised value,
whether a handle is now stored, the value of `self._attemptNo` afterwards,
the number of underlying connect attempts made, and the number of
`sleep(self.sleepLen)` calls made. -/
structure ConnectResult where
  res : Except DbErr Unit
  connected : Bool
  attemptNoAfter : Nat
  attempts : Nat
  sleeps : Nat
deriving Repr

/-- `Db.connect` (db.py lines 256-274).  `connected` is
`self.checkIsConnected()` at entry (a failed attempt never stores a handle,
so it stays false across the retry recursion); `attemptNo` is
`self._attemptNo`; `k` indexes the driver oracle.  On a recoverable failure
the code sleeps, increments `self._attemptNo` and calls itself; on success it
resets `self._attemptNo` to 1; when `self._attemptMaxNo == 1` it raises
`SERVER_CONNECT` without sleeping. -/
def connect (attemptMaxNo : Nat) (oracle : Nat → ConnectOutcome)
    (connected : Bool) (attemptNo k : Nat) : ConnectResult :=
  if connected then
    ⟨.ok (), true, attemptNo, 0, 0⟩
  else
    match h : tryConnectR attemptNo attemptMaxNo (oracle k) with
    | .error e => ⟨.error e, false, attemptNo, 1, 0⟩
    | .ok true => ⟨.ok (), true, 1, 1, 0⟩
    | .ok false =>
        if hmax : attemptMaxNo = 1 then
          ⟨.error ⟨SERVER_CONNECT, []⟩, false, attemptNo, 1, 0⟩
        else
          let r := connect attemptMaxNo oracle false (attemptNo + 1) (k + 1)
          ⟨r.res, r.connected, r.attemptNoAfter, r.attempts + 1, r.sleeps + 1⟩
termination_by attemptMaxNo - attemptNo
decreasing_by
  have := tryConnectR_ok_false h
  omega

/-! Unfolding lemmas for `connect`, one per shape of the driver outcome. -/

theorem connect_step_err (mx : Nat) (oracle : Nat → ConnectOutcome) (a k : Nat)
    (c : Int) (m : String) (ho : oracle k = .err c m) (hc : c ∈ mysqlConnErrors)
    (hlt : a < mx) (hne : mx ≠ 1) :
    connect mx oracle false a k =
      ⟨(connect mx oracle false (a+1) (k+1)).res,
       (connect mx oracle false (a+1) (k+1)).connected,
       (connect mx oracle false (a+1) (k+1)).attemptNoAfter,
       (connect mx oracle false (a+1) (k+1)).attempts + 1,
       (connect mx oracle false (a+1) (k+1)).sleeps + 1⟩ := by
  rw [connect]
  simp only [Bool.false_eq_true, if_false]
  split
  · rename_i e heq
    rw [ho] at heq
    simp [tryConnectR, hc, hlt] at heq
  · rename_i heq
    rw [ho] at heq
    simp [tryConnectR, hc, hlt] at heq
  · simp [hne]

theorem connect_raise_last (mx : Nat) (oracle : Nat → ConnectOutcome) (a k : Nat)
    (c : Int) (m : String) (ho : oracle k = .err c m) (_hc : c ∈ mysqlConnErrors)
    (hge : ¬ a < mx) (hne : mx ≠ 1) :
    connect mx oracle false a k =
      ⟨.error ⟨SERVER_CONNECT, [toString c ++ ": " ++ m]⟩, false, a, 1, 0⟩ := by
  rw [connect]
  simp only [Bool.false_eq_true, if_false]
  split
  · rename_i e heq
    rw [ho] at heq
    simp [tryConnectR, hge, hne] at heq
    rw [← heq]
  · rename_i heq
    rw [ho] at heq
    simp [tryConnectR] at heq
    split at heq
    · simp at heq
    · simp at heq
  · rename_i heq
    rw [ho] at heq
    simp [tryConnectR, hge, hne] at heq

theorem connect_raise_max1 (mx : Nat) (oracle : Nat → ConnectOutcome) (a k : Nat)
    (c : Int) (m : String) (ho : oracle k = .err c m) (hc : c ∈ mysqlConnErrors)
    (h1 : mx = 1) :
    connect mx oracle false a k =
      ⟨.error ⟨SERVER_CONNECT, []⟩, false, a, 1, 0⟩ := by
  rw [connect]
  simp only [Bool.false_eq_true, if_false]
  split
  · rename_i e heq
    rw [ho] at heq
    simp [tryConnectR, hc, h1] at heq
  · rename_i heq
    rw [ho] at heq
    simp [tryConnectR, hc, h1] at heq
  · simp [h1]

theorem connect_nonconn (mx : Nat) (oracle : Nat → ConnectOutcome) (a k : Nat)
    (c : Int) (m : String) (ho : oracle k = .err c m)
    (hc : c ∉ mysqlConnErrors) :
    connect mx oracle false a k =
      ⟨.error ⟨SERVER_CONNECT, [toString c ++ ": " ++ m]⟩, false, a, 1, 0⟩ := by
  rw [connect]
  simp only [Bool.false_eq_true, if_false]
  split
  · rename_i e heq
    rw [ho] at heq
    simp [tryConnectR, hc] at heq
    rw [← heq]
  · rename_i heq
    rw [ho] at heq
    simp [tryConnectR, hc] at heq
  · rename_i heq
    rw [ho] at heq
    simp [tryConnectR, hc] at heq

theorem connect_ok_step (mx : Nat) (oracle : Nat → ConnectOutcome) (a k : Nat)
    (ho : oracle k = .ok) :
    connect mx oracle false a k = ⟨.ok (), true, 1, 1, 0⟩ := by
  rw [connect]
  simp only [Bool.false_eq_true, if_false]
  split
  · rename_i e heq
    rw [ho] at heq
    simp [tryConnectR] at heq
  · rfl
  · rename_i heq
    rw [ho] at heq
    simp [tryConnectR] at heq

/-- Characterization of a `connect()` call when every underlying connect
attempt fails with a connection-class error: it raises `SERVER_CONNECT`,
makes exactly `attemptMaxNo - attemptNo + 1` underlying attempts, sleeps
between consecutive attempts (one fewer sleep than attempts), and leaves
`self._attemptNo` at `attemptMaxNo`. -/
theorem connect_allfail_spec (mx : Nat) (oracle : Nat → ConnectOutcome)
    (hall : ∀ j, connClassErr (oracle j) = true) :
    ∀ n a k, mx - a = n → 1 ≤ a → a ≤ mx →
      errCodeOf (connect mx oracle false a k).res = some SERVER_CONNECT ∧
      (connect mx oracle false a k).attempts = mx - a + 1 ∧
      (connect mx oracle false a k).sleeps = mx - a ∧
      (connect mx oracle false a k).attemptNoAfter = mx ∧
      (connect mx oracle false a k).connected = false := by
  intro n
  induction n using Nat.strong_induction_on with
  | _ n ih =>
    intro a k hn h1 h2
    have hk := hall k
    cases ho : oracle k with
    | ok => rw [ho] at hk; simp [connClassErr] at hk
    | warn m => rw [ho] at hk; simp [connClassErr] at hk
    | err c m =>
      rw [ho] at hk
      have hc : c ∈ mysqlConnErrors := by simpa [connClassErr] using hk
      by_cases hlt : a < mx
      · have hne : mx ≠ 1 := by omega
        rw [connect_step_err mx oracle a k c m ho hc hlt hne]
        have hrec := ih (mx - (a + 1)) (by omega) (a + 1) (k + 1) rfl
          (by omega) (by omega)
        refine ⟨hrec.1, ?_, ?_, hrec.2.2.2.1, hrec.2.2.2.2⟩
        · simp only [hrec.2.1]; omega
        · simp only [hrec.2.2.1]; omega
      · -- last attempt: a = mx
        by_cases h1' : mx = 1
        · rw [connect_raise_max1 mx oracle a k c m ho hc h1']
          exact ⟨rfl, by show 1 = mx - a + 1; omega, by show 0 = mx - a; omega,
            by show a = mx; omega, rfl⟩
        · rw [connect_raise_last mx oracle a k c m ho hc hlt h1']
          exact ⟨rfl, by show 1 = mx - a + 1; omega, by show 0 = mx - a; omega,
            by show a = mx; omega, rfl⟩

/-- Success resets the attempt counter to 1; failure never resets it below
its entry value. -/
theorem connect_counter_spec (mx : Nat) (oracle : Nat → ConnectOutcome) :
    ∀ n a k, mx - a = n →
      ((connect mx oracle false a k).res = .ok () →
        (connect mx oracle false a k).attemptNoAfter = 1) ∧
      (∀ e, (connect mx oracle false a k).res = .error e →
        a ≤ (connect mx oracle false a k).attemptNoAfter) := by
  intro n
  induction n using Nat.strong_induction_on with
  | _ n ih =>
    intro a k hn
    cases ho : oracle k with
    | ok =>
      rw [connect_ok_step mx oracle a k ho]
      exact ⟨fun _ => rfl, fun e he => by simp at he⟩
    | warn m =>
      have hw : connect mx oracle false a k =
          ⟨.error ⟨SERVER_WARNING, [m]⟩, false, a, 1, 0⟩ := by
        rw [connect]
        simp only [Bool.false_eq_true, if_false]
        split
        · rename_i e heq
          rw [ho] at heq
          simp [tryConnectR] at heq
          rw [← heq]
        · rename_i heq
          rw [ho] at heq
          simp [tryConnectR] at heq
        · rename_i heq
          rw [ho] at heq
          simp [tryConnectR] at heq
      rw [hw]
      exact ⟨fun h => by simp at h, fun e he => le_refl a⟩
    | err c m =>
      by_cases hc : c ∈ mysqlConnErrors
      · by_cases h1' : mx = 1
        · rw [connect_raise_max1 mx oracle a k c m ho hc h1']
          exact ⟨fun h => by simp at h, fun e he => le_refl a⟩
        · by_cases hlt : a < mx
          · rw [connect_step_err mx oracle a k c m ho hc hlt h1']
            have hrec := ih (mx - (a + 1)) (by omega) (a + 1) (k + 1) rfl
            refine ⟨fun h => hrec.1 h, fun e he => ?_⟩
            have h2 := hrec.2 e he
            show a ≤ (connect mx oracle false (a + 1) (k + 1)).attemptNoAfter
            omega
          · rw [connect_raise_last mx oracle a k c m ho hc hlt h1']
            exact ⟨fun h => by simp at h, fun e he => le_refl a⟩
      · rw [connect_nonconn mx oracle a k c m ho hc]
        exact ⟨fun h => by simp at h, fun e he => le_refl a⟩

/-- C2: for a Db whose retry policy allows `N = 1 + maxRetryCount` total
attempts, if every underlying connect attempt fails with a connection-class
error code then `connect()` raises `SERVER_CONNECT` after exactly `N`
underlying connect attempts, sleeping the configured length between
consecutive attempts (`N - 1` sleeps), while a non-connection-class driver
error raises `SERVER_CONNECT` immediately after a single attempt with no
sleep. -/
theorem connect_bounded_retry (maxRetryCount : Nat)
    (oracle : Nat → ConnectOutcome)
    (hall : ∀ j, connClassErr (oracle j) = true)
    (oracle2 : Nat → ConnectOutcome) (c : Int) (m : String)
    (h2 : oracle2 0 = .err c m) (hc2 : c ∉ mysqlConnErrors) :
    errCodeOf (connect (1 + maxRetryCount) oracle false 1 0).res
        = some SERVER_CONNECT ∧
    (connect (1 + maxRetryCount) oracle false 1 0).attempts
        = 1 + maxRetryCount ∧
    (connect (1 + maxRetryCount) oracle false 1 0).sleeps = maxRetryCount ∧
    errCodeOf (connect (1 + maxRetryCount) oracle2 false 1 0).res
        = some SERVER_CONNECT ∧
    (connect (1 + maxRetryCount) oracle2 false 1 0).attempts = 1 ∧
    (connect (1 + maxRetryCount) oracle2 false 1 0).sleeps = 0 := by
  have hs := connect_allfail_spec (1 + maxRetryCount) oracle hall
      (1 + maxRetryCount - 1) 1 0 rfl (by omega) (by omega)
  rw [connect_nonconn (1 + maxRetryCount) oracle2 1 0 c m h2 hc2]
  refine ⟨hs.1, ?_, ?_, rfl, rfl, rfl⟩
  · rw [hs.2.1]
    omega
  · rw [hs.2.2.1]
    omega

/-- Witness for `connect_bounded_retry`: maxRetryCount = 2 (three total
attempts), a driver refusing every connection with code 2003, and a driver
answering access-denied (1045, not connection-class) on the first attempt. -/
theorem connect_bounded_retry_witness :
    errCodeOf (connect (1 + 2) (fun _ => ConnectOutcome.err 2003 "refused")
        false 1 0).res = some SERVER_CONNECT ∧
    (connect (1 + 2) (fun _ => ConnectOutcome.err 2003 "refused")
        false 1 0).attempts = 1 + 2 ∧
    (connect (1 + 2) (fun _ => ConnectOutcome.err 2003 "refused")
        false 1 0).sleeps = 2 ∧
    errCodeOf (connect (1 + 2) (fun _ => ConnectOutcome.err 1045 "denied")
        false 1 0).res = some SERVER_CONNECT ∧
    (connect (1 + 2) (fun _ => ConnectOutcome.err 1045 "denied")
        false 1 0).attempts = 1 ∧
    (connect (1 + 2) (fun _ => ConnectOutcome.err 1045 "denied")
        false 1 0).sleeps = 0 :=
  connect_bounded_retry 2 (fun _ => ConnectOutcome.err 2003 "refused")
    (fun _ => rfl) (fun _ => ConnectOutcome.err 1045 "denied") 1045 "denied"
    rfl (by decide)

/-- C10: the attempt counter `self._attemptNo` is reset to 1 only by a
successful connect attempt, never by a failed `connect()` call; hence after a
call that exhausted its budget of `N` attempts and raised, the counter is
left at `N`, and every subsequent `connect()` on the same instance makes
exactly one underlying attempt and raises `SERVER_CONNECT` immediately (no
sleep) when that attempt fails with a connection-class error. -/
theorem attempt_counter_not_reset_on_failure (N : Nat) (hN : 1 ≤ N)
    (oracle : Nat → ConnectOutcome) (hall : ∀ j, connClassErr (oracle j) = true)
    (oracle2 : Nat → ConnectOutcome) (c : Int) (m : String)
    (h0 : oracle2 0 = .err c m) (hc : c ∈ mysqlConnErrors) :
    (connect N oracle false 1 0).attemptNoAfter = N ∧
    errCodeOf (connect N oracle false 1 0).res = some SERVER_CONNECT ∧
    (connect N oracle2 false N 0).attempts = 1 ∧
    (connect N oracle2 false N 0).sleeps = 0 ∧
    errCodeOf (connect N oracle2 false N 0).res = some SERVER_CONNECT ∧
    (connect N oracle2 false N 0).attemptNoAfter = N ∧
    (∀ (o : Nat → ConnectOutcome) (a k : Nat),
      ((connect N o false a k).res = .ok () →
        (connect N o false a k).attemptNoAfter = 1) ∧
      (∀ e, (connect N o false a k).res = .error e →
        a ≤ (connect N o false a k).attemptNoAfter)) := by
  have hs := connect_allfail_spec N oracle hall (N - 1) 1 0 rfl (by omega) hN
  have hb : connect N oracle2 false N 0 =
      if N = 1 then ⟨.error ⟨SERVER_CONNECT, []⟩, false, N, 1, 0⟩
      else ⟨.error ⟨SERVER_CONNECT, [toString c ++ ": " ++ m]⟩, false, N, 1, 0⟩ := by
    by_cases h1 : N = 1
    · rw [connect_raise_max1 N oracle2 N 0 c m h0 hc h1, if_pos h1]
    · rw [connect_raise_last N oracle2 N 0 c m h0 hc (by omega) h1, if_neg h1]
  refine ⟨hs.2.2.2.1, hs.1, ?_, ?_, ?_, ?_,
    fun o a k => connect_counter_spec N o (N - a) a k rfl⟩ <;>
    rw [hb] <;> by_cases h1 : N = 1 <;> simp [h1, errCodeOf]

/-- Witness for `attempt_counter_not_reset_on_failure`: N = 2, a driver
failing every attempt with code 2006, then a second call whose first attempt
fails with code 2013. -/
theorem attempt_counter_not_reset_on_failure_witness :
    (connect 2 (fun _ => ConnectOutcome.err 2006 "gone away") false 1 0).attemptNoAfter = 2 ∧
    errCodeOf (connect 2 (fun _ => ConnectOutcome.err 2006 "gone away") false 1 0).res
      = some SERVER_CONNECT ∧
    (connect 2 (fun _ => ConnectOutcome.err 2013 "lost") false 2 0).attempts = 1 ∧
    (connect 2 (fun _ => ConnectOutcome.err 2013 "lost") false 2 0).sleeps = 0 ∧
    errCodeOf (connect 2 (fun _ => ConnectOutcome.err 2013 "lost") false 2 0).res
      = some SERVER_CONNECT ∧
    (connect 2 (fun _ => ConnectOutcome.err 2013 "lost") false 2 0).attemptNoAfter = 2 :=
  let h := attempt_counter_not_reset_on_failure 2 (by decide)
    (fun _ => ConnectOutcome.err 2006 "gone away") (fun _ => rfl)
    (fun _ => ConnectOutcome.err 2013 "lost") 2013 "lost" rfl (by decide)
  ⟨h.1, h.2.1, h.2.2.1, h.2.2.2.1, h.2.2.2.2.1, h.2.2.2.2.2.1⟩

/-! ## Rows, result shaping, and driver error mapping -/

/-- A value in a result row: SQL NULL, an integer, or a string. -/
inductive Val
  | NULL
  | int (n : Int)
  | str (s : String)
deriving DecidableEq, Repr

/-- A result row, as the tuple returned by the cursor. -/
abbrev Row := List Val

/-- The `nRowsRet` argument of `_execCommand` (valid: 0, 1, 'n'). -/
inductive NRows
  | zero
  | one
  | many
deriving DecidableEq, Repr

/-- Result of `_execCommand` after shaping (db.py lines 657-665): an empty
string for 0 rows, `cursor.fetchone()` (the first row, or `None` when there
is none) for 1 row, `cursor.fetchall()` otherwise. -/
inductive Ret
  | emptyStr
  | oneRow (r : Option Row)
  | allRows (rs : List Row)
deriving DecidableEq, Repr

def shape (nr : NRows) (rs : List Row) : Ret :=
  match nr with
  | .zero => .emptyStr
  | .one => .oneRow rs.head?
  | .many => .allRows rs

/-- MySQL error numbers this wrapper is sensitive to, db.py lines 238-241. -/
def mysqlDbExistError : Int := 1007

def mysqlDbDoesNotExistError : Int := 1008

def mysqlTbExistError : Int := 1050

def mysqlTbDoesNotExistError : Int := 1051

/-- Mapping of a `MySQLdb.Error` raised by `cursor.execute` to the raised
`DbException` (db.py lines 641-652): the four schema-specific codes are
translated, everything else — including connection-class codes — becomes
`SERVER_ERROR`. -/
def mapExecErr (c : Int) (m : String) : DbErr :=
  let msg := "Database Error [" ++ toString c ++ "]: " ++ m ++ "."
  if c = mysqlDbExistError then ⟨DB_EXISTS, [msg]⟩
  else if c = mysqlDbDoesNotExistError then ⟨DB_DOES_NOT_EXIST, [msg]⟩
  else if c = mysqlTbExistError then ⟨TB_EXISTS, [msg]⟩
  else if c = mysqlTbDoesNotExistError then ⟨TB_DOES_NOT_EXIST, [msg]⟩
  else ⟨SERVER_ERROR, [msg]⟩

/-! ## `Db._execCommand` (db.py lines 612-665) with explicit driver outcomes

The claims about reconnect-on-command-failure concern how `_execCommand`
reacts to the driver, so here the driver's answers are parameters: `ping`
is the outcome of the `self._conn.ping()` call, and `exs j` the outcome of
the j-th `cursor.execute(command)` call this invocation would make (the
source makes exactly one).  Connection establishment itself is taken as
succeeding (the reconnect claims presuppose a server that accepts
connections). -/

/-- Outcome of `self._conn.ping()`. -/
inductive PingResult
  | ok
  | err (code : Int) (msg : String)
deriving DecidableEq, Repr

/-- Outcome of one `cursor.execute(command)` call. -/
inductive ExecResult
  | ok (rows : List Row)
  | err (code : Int) (msg : String)
  | warn (msg : String)
deriving DecidableEq, Repr

/-- Handle state at this level: the stored connection, if any, with the
database it has selected. -/
structure OSt where
  conn : Option (Option String)
deriving DecidableEq, Repr

/-- `Db.connect` with an always-up server: a no-op when a handle is present,
otherwise a fresh handle selecting `dbName`. -/
def oconnect (st : OSt) (dbName : Option String) : OSt :=
  match st.conn with
  | some _ => st
  | none => ⟨some dbName⟩

/-- `Db._execCommand`, db.py lines 612-665.  The source first calls
`self.connect()` (no database argument), then pings; only a ping failure
with a connection-class code triggers `self.disconnect()` followed by
`self.connect()` — again with no database argument, so the new handle has no
selected database — while a non-connection-class ping error is caught and
ignored.  The command is then executed exactly once: a `MySQLdb.Error` is
mapped by `mapExecErr` and raised (no reconnect, no retry), a
`MySQLdb.Warning` raises `SERVER_WARNING`.  The second component counts the
`cursor.execute` calls made. -/
def execCommandO (st : OSt) (ping : PingResult) (exs : Nat → ExecResult)
    (nr : NRows) : (Except DbErr (OSt × Ret)) × Nat :=
  let st1 := oconnect st none
  let st2 := match ping with
    | .ok => st1
    | .err c _ => if c ∈ mysqlConnErrors then oconnect ⟨none⟩ none else st1
  match exs 0 with
  | .ok rows => (.ok (st2, shape nr rows), 1)
  | .err c m => (.error (mapExecErr c m), 1)
  | .warn m => (.error ⟨SERVER_WARNING, [m]⟩, 1)

end DbPy

namespace DbServ

/-! ## The dbserv variant: `src/python/lsst/dbserv/db.py`

Error codes of its `DbException` (lines 53-67) and the `_execCommand` that
recovers from a connection-class failure by calling itself recursively
(lines 569-614). -/

def ERR_CANT_CONNECT_TO_DB : Nat := 1500
def ERR_CANT_EXEC_SCRIPT : Nat := 1505
def ERR_DB_EXISTS : Nat := 1510
def ERR_DB_DOES_NOT_EXIST : Nat := 1515
def ERR_INVALID_DB_NAME : Nat := 1520
def ERR_INVALID_OPT_FILE : Nat := 1522
def ERR_MISSING_CON_INFO : Nat := 1525
def ERR_MYSQL_CONNECT : Nat := 1530
def ERR_MYSQL_DISCONN : Nat := 1535
def ERR_MYSQL_ERROR : Nat := 1540
def ERR_NO_DB_SELECTED : Nat := 1545
def ERR_NOT_CONNECTED : Nat := 1550
def ERR_TB_DOES_NOT_EXIST : Nat := 1555
def ERR_TB_EXISTS : Nat := 1560
def ERR_INTERNAL : Nat := 9999

/-- `DbException(errNo, extraMsgList)` of the dbserv variant. -/
structure DbErr where
  errCode : Nat
  msgs : List String
deriving DecidableEq, Repr

/-- MySQL connection-related error numbers, dbserv db.py line 180
(`self._mysqlConnErrors = [2002, 2006]`). -/
def mysqlConnErrors : List Int := [2002, 2006]

/-- Wrapper state: the handle, the `_isConnectedToDb` flag, and
`_defaultDbName`. -/
structure SSt where
  conn : Option Unit
  isConnectedToDb : Bool
  defaultDbName : Option String
deriving DecidableEq, Repr

/-- `Db.connectToMySQLServer` (lines 205-217) with an always-up server:
installs a handle if none is present. -/
def connectToMySQLServer (st : SSt) : SSt :=
  match st.conn with
  | some _ => st
  | none => { st with conn := some () }

def getDefaultDbName (st : SSt) : Option String := st.defaultDbName

def checkIsConnected (st : SSt) : Bool := st.conn.isSome

def checkIsConnectedToDb (st : SSt) (dbName : String) : Bool :=
  checkIsConnected st && st.isConnectedToDb
    && (some dbName == getDefaultDbName st)

def getDefaultDbNameIfNeeded (st : SSt) (dbName : Option String) :
    Except DbErr String :=
  match dbName with
  | some d => .ok d
  | none =>
      match getDefaultDbName st with
      | some d => .ok d
      | none => .error ⟨ERR_INVALID_DB_NAME, ["<None>"]⟩

/-- `Db.connectToDb` (lines 297-317) with an always-up server: selecting the
database succeeds, records it as default and sets `_isConnectedToDb`. -/
def connectToDb (st : SSt) (dbName : Option String) : Except DbErr SSt :=
  match getDefaultDbNameIfNeeded st dbName with
  | .error e => .error e
  | .ok d =>
      if checkIsConnectedToDb st d then .ok st
      else
        let st1 := connectToMySQLServer st
        .ok { st1 with isConnectedToDb := true, defaultDbName := some d }

/-- Outcome of one `cursor.execute(command)` call (this variant catches only
`MySQLdb.Error` / `OperationalError`, not warnings). -/
inductive SExecResult
  | ok (rows : List DbPy.Row)
  | err (code : Int) (msg : String)
deriving DecidableEq, Repr

/-- `Db._execCommand` (dbserv db.py lines 569-614).  On a connection-class
execute failure the source closes the handle, clears `_isConnectedToDb`,
re-selects the recorded default database via `connectToDb` when one is set,
and then returns `self._execCommand(command, nRowsRet)` — an unbounded
recursive retry.  `fuel` bounds that recursion purely as an artifact of the
embedding (the source has no such bound); every theorem below supplies more
fuel than the depth actually reached.  The second component counts the
`cursor.execute` calls made. -/
def execCommand (fuel : Nat) (st : SSt) (exs : Nat → SExecResult)
    (k : Nat) (nr : DbPy.NRows) :
    (Except DbErr (SSt × DbPy.Ret)) × Nat :=
  match fuel with
  | 0 => (.error ⟨ERR_INTERNAL, ["recursion fuel exhausted"]⟩, 0)
  | fuel' + 1 =>
      let st1 := connectToMySQLServer st
      match exs k with
      | .ok rows => (.ok (st1, DbPy.shape nr rows), 1)
      | .err c m =>
          if c ∈ mysqlConnErrors then
            let st2 : SSt := ⟨none, false, st1.defaultDbName⟩
            match getDefaultDbName st2 with
            | some d =>
                match connectToDb st2 (some d) with
                | .error e => (.error e, 1)
                | .ok st3 =>
                    let r := execCommand fuel' st3 exs (k + 1) nr
                    (r.1, r.2 + 1)
            | none =>
                let r := execCommand fuel' st2 exs (k + 1) nr
                (r.1, r.2 + 1)
          else
            (.error ⟨ERR_MYSQL_ERROR,
              ["MySQL Error [" ++ toString c ++ "]: " ++ m ++ "."]⟩, 1)

end DbServ

/-- C1 counterexample: in db/db.py, with a live handle selecting database
"A", a healthy ping, and a `cursor.execute` that fails with the
connection-class code 2006 while any further attempt would succeed,
`_execCommand` raises `SERVER_ERROR` after a single execute call — it does
not close the handle, reconnect and retry once as the claim states, and the
call fails even though the single post-reconnect attempt would have
succeeded. -/
theorem execCommand_no_retry_cex :
    DbPy.execCommandO ⟨some (some "A")⟩ DbPy.PingResult.ok
      (fun j => if j = 0
        then DbPy.ExecResult.err 2006 "MySQL server has gone away"
        else DbPy.ExecResult.ok [])
      DbPy.NRows.one
    = (.error ⟨DbPy.SERVER_ERROR,
        ["Database Error [2006]: MySQL server has gone away."]⟩, 1) := by
  rfl

/-- C1 amended: in db/db.py, `_execCommand` never retries the command — any
failure of the single `cursor.execute` call, including one with a
connection-class code, raises the mapped exception (`mapExecErr`, with
connection-class codes becoming `SERVER_ERROR`) after exactly one execute
call; its only recovery path is the pre-execute ping, whose connection-class
failure triggers a disconnect and reconnect that installs a handle with no
selected database.  In dbserv/db.py, `_execCommand` on a connection-class
execute failure closes the handle, re-selects the recorded default database
when one is set, and retries by calling itself recursively without bound:
two consecutive connection-class failures followed by a success make the
call succeed after three execute calls, beyond the claimed single retry. -/
theorem execCommand_reconnect_behavior
    (st : DbPy.OSt) (ping : DbPy.PingResult) (exs : Nat → DbPy.ExecResult)
    (nr : DbPy.NRows) (c : Int) (m : String) (he : exs 0 = .err c m)
    (pc : Int) (pm : String) (hp : ping = .err pc pm)
    (hpc : pc ∈ DbPy.mysqlConnErrors)
    (exs2 : Nat → DbPy.ExecResult) (rows : List DbPy.Row)
    (hok : exs2 0 = .ok rows)
    (sst : DbServ.SSt) (d : String) (hd : sst.defaultDbName = some d)
    (sexs : Nat → DbServ.SExecResult) (c0 c1 : Int) (m0 m1 : String)
    (hs0 : sexs 0 = .err c0 m0) (hc0 : c0 ∈ DbServ.mysqlConnErrors)
    (hs1 : sexs 1 = .err c1 m1) (hc1 : c1 ∈ DbServ.mysqlConnErrors)
    (srows : List DbPy.Row) (hs2 : sexs 2 = .ok srows) (nrs : DbPy.NRows) :
    DbPy.execCommandO st ping exs nr = (.error (DbPy.mapExecErr c m), 1) ∧
    DbPy.execCommandO st ping exs2 nr
      = (.ok (⟨some none⟩, DbPy.shape nr rows), 1) ∧
    DbServ.execCommand 5 sst sexs 0 nrs
      = (.ok (⟨some (), true, some d⟩, DbPy.shape nrs srows), 3) := by
  refine ⟨?_, ?_, ?_⟩
  · simp [DbPy.execCommandO, he]
  · simp [DbPy.execCommandO, hok, hp, hpc, DbPy.oconnect]
  · have h1 : DbServ.connectToMySQLServer sst
        = { sst with conn := some () } ∨
        DbServ.connectToMySQLServer sst = sst := by
      cases hcn : sst.conn with
      | none => exact Or.inl (by simp [DbServ.connectToMySQLServer, hcn])
      | some u => exact Or.inr (by simp [DbServ.connectToMySQLServer, hcn])
    have hd1 : (DbServ.connectToMySQLServer sst).defaultDbName = some d := by
      rcases h1 with h | h <;> rw [h] <;> simpa using hd
    simp only [DbServ.execCommand, hs0, hs1, hs2]
    rw [hd1]
    simp [hc0, hc1, DbServ.getDefaultDbName, DbServ.connectToDb,
      DbServ.getDefaultDbNameIfNeeded, DbServ.checkIsConnectedToDb,
      DbServ.checkIsConnected, DbServ.connectToMySQLServer, DbPy.shape]

/-- Witness for `execCommand_reconnect_behavior` at concrete driver
outcomes: a ping failing with 2013, a first execute failing with 2006, and
for the dbserv variant executes failing with 2006 then 2002 before
succeeding. -/
theorem execCommand_reconnect_behavior_witness :
    DbPy.execCommandO ⟨some (some "A")⟩ (DbPy.PingResult.err 2013 "lost")
      (fun j => if j = 0 then DbPy.ExecResult.err 2006 "gone"
                else DbPy.ExecResult.ok [])
      DbPy.NRows.one
      = (.error (DbPy.mapExecErr 2006 "gone"), 1) ∧
    DbPy.execCommandO ⟨some (some "A")⟩ (DbPy.PingResult.err 2013 "lost")
      (fun _ => DbPy.ExecResult.ok [[DbPy.Val.int 1]]) DbPy.NRows.one
      = (.ok (⟨some none⟩, DbPy.shape DbPy.NRows.one [[DbPy.Val.int 1]]), 1) ∧
    DbServ.execCommand 5 ⟨some (), true, some "D"⟩
      (fun j => if j = 0 then DbServ.SExecResult.err 2006 "g0"
                else if j = 1 then DbServ.SExecResult.err 2002 "g1"
                else DbServ.SExecResult.ok [])
      0 DbPy.NRows.one
      = (.ok (⟨some (), true, some "D"⟩, DbPy.shape DbPy.NRows.one []), 3) :=
  execCommand_reconnect_behavior ⟨some (some "A")⟩
    (DbPy.PingResult.err 2013 "lost")
    (fun j => if j = 0 then DbPy.ExecResult.err 2006 "gone"
              else DbPy.ExecResult.ok [])
    DbPy.NRows.one 2006 "gone" rfl 2013 "lost" rfl (by decide)
    (fun _ => DbPy.ExecResult.ok [[DbPy.Val.int 1]]) [[DbPy.Val.int 1]] rfl
    ⟨some (), true, some "D"⟩ "D" rfl
    (fun j => if j = 0 then DbServ.SExecResult.err 2006 "g0"
              else if j = 1 then DbServ.SExecResult.err 2002 "g1"
              else DbServ.SExecResult.ok [])
    2006 2002 "g0" "g1" rfl (by decide) rfl (by decide) [] rfl
    DbPy.NRows.one

namespace DbPy

/-! ## Schema-management operations over a live MySQL server

Claims C3-C6 concern the schema helpers (`createDb`, `dropDb`,
`checkTableExists`, `createTable`, `dropTable`, `disconnect`) composed from
`_execCommand` against a live server.  The server together with the driver
is modelled operationally: a set of databases and tables, and per-command
responses carrying the MySQL error numbers that db.py branches on
(1007/1008/1050/1051, lines 238-241).  The ping of `_execCommand` succeeds
(live server, live handle), so its reconnect branch is not taken here;
whether closing a handle reports a driver error is part of the handle state
(`closeErr`), since `disconnect` has an explicit handler for it. -/

/-- Server-side state: existing databases and (database, table) pairs. -/
structure Server where
  dbs : List String
  tables : List (String × String)
deriving DecidableEq, Repr

/-- A driver handle: the database it has selected, its `.open` attribute,
and whether `close()` would report a driver error. -/
structure Conn where
  selectedDb : Option String
  isOpen : Bool
  closeErr : Option (Int × String)
deriving DecidableEq, Repr

/-- Wrapper state: `self._conn` plus the server. -/
structure St where
  conn : Option Conn
  server : Server
deriving DecidableEq, Repr

/-- The SQL texts db.py interpolates, as an abstract command type. -/
inductive Cmd
  | createDbC (name : String)
  | dropDbC (name : String)
  | selectDatabaseC
  | countSchemaC (name : String)
  | countTableC (db table : String)
  | createTableC (db table schema : String)
  | dropTableC (db table : String)
deriving DecidableEq, Repr

/-- MySQL server semantics for those commands: 1064 for a syntactically
invalid (empty) object name, 1007/1008 for create/drop database on an
existing/missing database, 1049 for a table operation in an unknown
database, 1050/1051 for create/drop table on an existing/missing table;
`SELECT DATABASE()` reports the handle's selected database (NULL if none),
and the information-schema counts report 1 or 0. -/
def runCmd (srv : Server) (sel : Option String) :
    Cmd → Except (Int × String) (Server × List Row)
  | .createDbC n =>
      if n = "" then .error (1064, "You have an error in your SQL syntax")
      else if n ∈ srv.dbs then
        .error (1007, "Cant create database; database exists")
      else .ok ({ srv with dbs := srv.dbs ++ [n] }, [])
  | .dropDbC n =>
      if n = "" then .error (1064, "You have an error in your SQL syntax")
      else if n ∈ srv.dbs then
        .ok (⟨srv.dbs.erase n, srv.tables.filter (fun p => p.1 != n)⟩, [])
      else .error (1008, "Cant drop database; database doesnt exist")
  | .selectDatabaseC =>
      .ok (srv, [[match sel with | some d => .str d | none => .NULL]])
  | .countSchemaC n =>
      .ok (srv, [[.int (if n ∈ srv.dbs then 1 else 0)]])
  | .countTableC db tb =>
      .ok (srv, [[.int (if (db, tb) ∈ srv.tables then 1 else 0)]])
  | .createTableC db tb _sch =>
      if db ∉ srv.dbs then .error (1049, "Unknown database")
      else if (db, tb) ∈ srv.tables then .error (1050, "Table already exists")
      else .ok ({ srv with tables := srv.tables ++ [(db, tb)] }, [])
  | .dropTableC db tb =>
      if (db, tb) ∈ srv.tables then
        .ok ({ srv with tables := srv.tables.erase (db, tb) }, [])
      else .error (1051, "Unknown table")

/-- `Db.checkIsConnected` (db.py lines 357-361):
`self._conn != None and self._conn.open`. -/
def checkIsConnectedS (st : St) : Bool :=
  match st.conn with
  | none => false
  | some c => c.isOpen

/-- `Db.connect` (always-up server): a no-op when already connected, else a
fresh open handle, selecting `dbName` when one is given. -/
def connectS (st : St) (dbName : Option String) : St :=
  if checkIsConnectedS st then st
  else { st with conn := some ⟨dbName, true, none⟩ }

/-- The handle `self._conn` after `connect()`; the fallback is unreachable
because `connectS` always installs a handle. -/
def theConn (st : St) : Conn := st.conn.getD ⟨none, true, none⟩

/-- `Db._execCommand` (db.py lines 612-665) instantiated with the
live-server semantics `runCmd`: connect, ping (succeeds here), execute once,
map driver errors exactly as lines 641-652 do, shape the rows. -/
def execCommandS (st : St) (cmd : Cmd) (nr : NRows) :
    Except DbErr (St × Ret) :=
  let st1 := connectS st none
  match runCmd st1.server (theConn st1).selectedDb cmd with
  | .error (c, m) => .error (mapExecErr c m)
  | .ok (srv, rs) => .ok ({ st1 with server := srv }, shape nr rs)

/-- `Db.execCommand0`. -/
def execCommand0S (st : St) (cmd : Cmd) : Except DbErr St :=
  match execCommandS st cmd .zero with
  | .error e => .error e
  | .ok (st1, _) => .ok st1

/-- `Db.execCommand1`: the fetched row (possibly `None`).  The final branch
is unreachable since `shape .one` always yields `.oneRow`. -/
def execCommand1S (st : St) (cmd : Cmd) : Except DbErr (St × Option Row) :=
  match execCommandS st cmd .one with
  | .error e => .error e
  | .ok (st1, .oneRow r) => .ok (st1, r)
  | .ok (st1, _) => .ok (st1, none)

/-- Row indexing `ret[0]` as used on one-row results; the fallback is
unreachable for the queries db.py issues, which always return one value. -/
def rowVal0 : Option Row → Val
  | some (v :: _) => v
  | _ => .NULL

/-- `Db.getCurrentDbName` (db.py lines 667-673): connect, then
`SELECT DATABASE()`, returning the first value of the row (`None` for SQL
NULL). -/
def getCurrentDbName (st : St) : Except DbErr (St × Option String) :=
  let st1 := connectS st none
  match execCommand1S st1 .selectDatabaseC with
  | .error e => .error e
  | .ok (st2, r) =>
      .ok (st2, match rowVal0 r with | .str s => some s | _ => none)

/-- `Db._getCurrentDbNameIfNeeded` (db.py lines 675-691): the explicit
argument if given, else the server-reported current database, else raise
`INVALID_DB_NAME`. -/
def getCurrentDbNameIfNeeded (st : St) (dbName : Option String) :
    Except DbErr (St × String) :=
  match dbName with
  | some d => .ok (st, d)
  | none =>
      match getCurrentDbName st with
      | .error e => .error e
      | .ok (st1, some d) => .ok (st1, d)
      | .ok (_, none) => .error ⟨INVALID_DB_NAME, ["<None>"]⟩

/-- `Db._closeConnection` (db.py lines 693-700): no-op without a handle;
otherwise `self._conn.close()` — when the driver reports an error the
exception propagates and `self._conn` is left in place, else the handle is
cleared. -/
def closeConnection (st : St) : Except (Int × String) St :=
  match st.conn with
  | none => .ok st
  | some c =>
      match c.closeErr with
      | some e => .error e
      | none => .ok { st with conn := none }

/-- `Db.disconnect` (db.py lines 310-328): no-op when not connected;
otherwise close, turning a driver error into `SERVER_DISCONN` (the handle
stays set in that case), and clear the handle on success. -/
def disconnect (st : St) : Except DbErr St :=
  if checkIsConnectedS st = false then .ok st
  else
    match closeConnection st with
    | .error (c, m) =>
        .error ⟨SERVER_DISCONN, ["Failed to disconnect. Error was: "
          ++ toString c ++ ": " ++ m ++ "."]⟩
    | .ok st1 => .ok { st1 with conn := none }

/-- `Db.createDb` (db.py lines 363-385). -/
def createDb (st : St) (dbName : Option String) (mayExist : Bool) :
    Except DbErr St :=
  match dbName with
  | none => .error ⟨INVALID_DB_NAME, ["<None>"]⟩
  | some n =>
      let st1 := connectS st none
      match execCommand0S st1 (.createDbC n) with
      | .ok st2 => .ok st2
      | .error e =>
          if e.errCode = DB_EXISTS ∧ mayExist then .ok st1
          else .error e

/-- `Db.checkDbExists` (db.py lines 387-405): `False` when the argument is
`None`, else the information-schema count compared with 1. -/
def checkDbExists (st : St) (dbName : Option String) :
    Except DbErr (St × Bool) :=
  match dbName with
  | none => .ok (st, false)
  | some n =>
      let st1 := connectS st none
      match execCommand1S st1 (.countSchemaC n) with
      | .error e => .error e
      | .ok (st2, r) => .ok (st2, rowVal0 r == .int 1)

/-- `Db.dropDb` (db.py lines 407-432): record the current database, drop
(tolerating a missing database when `mustExist` is false), and disconnect
when the dropped database was the current one. -/
def dropDb (st : St) (dbName : String) (mustExist : Bool) : Except DbErr St :=
  let st1 := connectS st none
  match getCurrentDbName st1 with
  | .error e => .error e
  | .ok (st2, cDb) =>
      match (match execCommand0S st2 (.dropDbC dbName) with
             | .ok st3 => .ok st3
             | .error e =>
                 if e.errCode = DB_DOES_NOT_EXIST ∧ ¬mustExist then .ok st2
                 else .error e : Except DbErr St) with
      | .error e => .error e
      | .ok st3 => if cDb = some dbName then disconnect st3 else .ok st3

/-- Table-existence query shared by the two branches of
`Db.checkTableExists` (db.py lines 451-455). -/
def checkTableExistsIn (st : St) (tableName dbName : String) :
    Except DbErr (St × Bool) :=
  match execCommand1S st (.countTableC dbName tableName) with
  | .error e => .error e
  | .ok (st1, r) => .ok (st1, rowVal0 r == .int 1)

/-- `Db.checkTableExists` (db.py lines 434-455): with no database argument
it consults `getCurrentDbName` and — line 450 — returns `False` when that
is `None`, instead of raising. -/
def checkTableExists (st : St) (tableName : String)
    (dbName : Option String) : Except DbErr (St × Bool) :=
  match dbName with
  | some d => checkTableExistsIn st tableName d
  | none =>
      match getCurrentDbName st with
      | .error e => .error e
      | .ok (st1, none) => .ok (st1, false)
      | .ok (st1, some d) => checkTableExistsIn st1 tableName d

/-- `Db.createTable` (db.py lines 457-480). -/
def createTable (st : St) (tableName tableSchema : String)
    (dbName : Option String) (mayExist : Bool) : Except DbErr St :=
  match getCurrentDbNameIfNeeded st dbName with
  | .error e => .error e
  | .ok (st1, d) =>
      match execCommand0S st1 (.createTableC d tableName tableSchema) with
      | .ok st2 => .ok st2
      | .error e =>
          if e.errCode = TB_EXISTS ∧ mayExist then .ok st1
          else .error e

/-- `Db.dropTable` (db.py lines 482-503). -/
def dropTable (st : St) (tableName : String) (dbName : Option String)
    (mustExist : Bool) : Except DbErr St :=
  match getCurrentDbNameIfNeeded st dbName with
  | .error e => .error e
  | .ok (st1, d) =>
      match execCommand0S st1 (.dropTableC d tableName) with
      | .ok st2 => .ok st2
      | .error e =>
          if e.errCode = TB_DOES_NOT_EXIST ∧ ¬mustExist then .ok st1
          else .error e

end DbPy

/-- C3 counterexample. -/
theorem checkTableExists_returns_false_cex :
    DbPy.checkTableExists ⟨some ⟨none, true, none⟩, ⟨[], []⟩⟩ "t" none
      = .ok (⟨some ⟨none, true, none⟩, ⟨[], []⟩⟩, false) := by
  rfl

/-- C3 amended. -/
theorem dbName_resolution_rule :
    (∀ (st : DbPy.St) (d : String),
      DbPy.getCurrentDbNameIfNeeded st (some d) = .ok (st, d)) ∧
    (∀ (st : DbPy.St) (c : DbPy.Conn) (d : String),
      st.conn = some c → c.isOpen = true → c.selectedDb = some d →
      DbPy.getCurrentDbNameIfNeeded st none = .ok (st, d)) ∧
    (∀ (st : DbPy.St) (c : DbPy.Conn),
      st.conn = some c → c.isOpen = true → c.selectedDb = none →
      DbPy.getCurrentDbNameIfNeeded st none
          = .error ⟨DbPy.INVALID_DB_NAME, ["<None>"]⟩ ∧
      (∀ t sch mayExist, DbPy.createTable st t sch none mayExist
          = .error ⟨DbPy.INVALID_DB_NAME, ["<None>"]⟩) ∧
      (∀ t mustExist, DbPy.dropTable st t none mustExist
          = .error ⟨DbPy.INVALID_DB_NAME, ["<None>"]⟩) ∧
      (∀ t, DbPy.checkTableExists st t none = .ok (st, false))) := by
  refine ⟨fun st d => rfl, ?_, ?_⟩
  · intro st c d hconn hopen hsel
    obtain ⟨cn, srv⟩ := st
    simp only at hconn
    subst hconn
    simp [DbPy.getCurrentDbNameIfNeeded, DbPy.getCurrentDbName,
      DbPy.connectS, DbPy.checkIsConnectedS, hopen, hsel, DbPy.theConn,
      DbPy.execCommand1S, DbPy.execCommandS, DbPy.runCmd, DbPy.shape,
      DbPy.rowVal0]
  · intro st c hconn hopen hsel
    obtain ⟨cn, srv⟩ := st
    simp only at hconn
    subst hconn
    refine ⟨?_, ?_, ?_, ?_⟩
    · simp [DbPy.getCurrentDbNameIfNeeded, DbPy.getCurrentDbName,
        DbPy.connectS, DbPy.checkIsConnectedS, hopen, hsel, DbPy.theConn,
        DbPy.execCommand1S, DbPy.execCommandS, DbPy.runCmd, DbPy.shape,
        DbPy.rowVal0]
    · intro t sch mayExist
      simp [DbPy.createTable, DbPy.getCurrentDbNameIfNeeded,
        DbPy.getCurrentDbName, DbPy.connectS, DbPy.checkIsConnectedS, hopen,
        hsel, DbPy.theConn, DbPy.execCommand1S, DbPy.execCommandS,
        DbPy.runCmd, DbPy.shape, DbPy.rowVal0]
    · intro t mustExist
      simp [DbPy.dropTable, DbPy.getCurrentDbNameIfNeeded,
        DbPy.getCurrentDbName, DbPy.connectS, DbPy.checkIsConnectedS, hopen,
        hsel, DbPy.theConn, DbPy.execCommand1S, DbPy.execCommandS,
        DbPy.runCmd, DbPy.shape, DbPy.rowVal0]
    · intro t
      simp [DbPy.checkTableExists, DbPy.getCurrentDbName, DbPy.connectS,
        DbPy.checkIsConnectedS, hopen, hsel, DbPy.theConn,
        DbPy.execCommand1S, DbPy.execCommandS, DbPy.runCmd, DbPy.shape,
        DbPy.rowVal0]

/-- Witness for `dbName_resolution_rule`. -/
theorem dbName_resolution_rule_witness :
    DbPy.getCurrentDbNameIfNeeded ⟨some ⟨some "A", true, none⟩, ⟨["A"], []⟩⟩
        (some "B") = .ok (⟨some ⟨some "A", true, none⟩, ⟨["A"], []⟩⟩, "B") ∧
    DbPy.getCurrentDbNameIfNeeded ⟨some ⟨some "A", true, none⟩, ⟨["A"], []⟩⟩
        none = .ok (⟨some ⟨some "A", true, none⟩, ⟨["A"], []⟩⟩, "A") ∧
    DbPy.createTable ⟨some ⟨none, true, none⟩, ⟨[], []⟩⟩ "t" "(i int)" none
        false = .error ⟨DbPy.INVALID_DB_NAME, ["<None>"]⟩ ∧
    DbPy.checkTableExists ⟨some ⟨none, true, none⟩, ⟨[], []⟩⟩ "t" none
        = .ok (⟨some ⟨none, true, none⟩, ⟨[], []⟩⟩, false) :=
  ⟨dbName_resolution_rule.1 ⟨some ⟨some "A", true, none⟩, ⟨["A"], []⟩⟩ "B",
   dbName_resolution_rule.2.1 ⟨some ⟨some "A", true, none⟩, ⟨["A"], []⟩⟩
     ⟨some "A", true, none⟩ "A" rfl rfl rfl,
   (dbName_resolution_rule.2.2 ⟨some ⟨none, true, none⟩, ⟨[], []⟩⟩
     ⟨none, true, none⟩ rfl rfl rfl).2.1 "t" "(i int)" false,
   (dbName_resolution_rule.2.2 ⟨some ⟨none, true, none⟩, ⟨[], []⟩⟩
     ⟨none, true, none⟩ rfl rfl rfl).2.2.2 "t"⟩

theorem connectS_server (st : DbPy.St) (d : Option String) :
    (DbPy.connectS st d).server = st.server := by
  unfold DbPy.connectS
  split <;> rfl

/-- C4. -/
theorem dropDb_clears_current_context (st : DbPy.St) (c : DbPy.Conn)
    (A t sch : String) (hconn : st.conn = some c) (hopen : c.isOpen = true)
    (hsel : c.selectedDb = some A) (hclose : c.closeErr = none)
    (hA : A ∈ st.server.dbs) (hne : A ≠ "") :
    (DbPy.dropDb st A true).map DbPy.St.conn = .ok none ∧
    DbPy.errCodeOf ((DbPy.dropDb st A true).bind
      (fun st2 => DbPy.createTable st2 t sch none false))
      = some DbPy.INVALID_DB_NAME := by
  obtain ⟨cn, srv⟩ := st
  simp only at hconn hA
  subst hconn
  obtain ⟨sel, op, ce⟩ := c
  simp only at hopen hsel hclose
  subst hopen hsel hclose
  have hdrop : DbPy.dropDb ⟨some ⟨some A, true, none⟩, srv⟩ A true
      = .ok ⟨none, ⟨srv.dbs.erase A, srv.tables.filter (fun p => p.1 != A)⟩⟩ := by
    simp [DbPy.dropDb, DbPy.connectS, DbPy.checkIsConnectedS,
      DbPy.getCurrentDbName, DbPy.execCommand1S, DbPy.execCommandS,
      DbPy.execCommand0S, DbPy.theConn, DbPy.runCmd, hne, hA, DbPy.shape,
      DbPy.rowVal0, DbPy.disconnect, DbPy.closeConnection]
  rw [hdrop]
  exact ⟨rfl, rfl⟩

/-- C4 witness. -/
theorem dropDb_clears_current_context_witness :
    (DbPy.dropDb ⟨some ⟨some "A", true, none⟩, ⟨["A"], [("A", "t0")]⟩⟩
        "A" true).map DbPy.St.conn = .ok none ∧
    DbPy.errCodeOf ((DbPy.dropDb
        ⟨some ⟨some "A", true, none⟩, ⟨["A"], [("A", "t0")]⟩⟩ "A" true).bind
      (fun st2 => DbPy.createTable st2 "t" "(i int)" none false))
      = some DbPy.INVALID_DB_NAME :=
  dropDb_clears_current_context
    ⟨some ⟨some "A", true, none⟩, ⟨["A"], [("A", "t0")]⟩⟩
    ⟨some "A", true, none⟩ "A" "t" "(i int)" rfl rfl rfl rfl
    (by decide) (by decide)

/-- C5. -/
theorem createDb_mayExist_tolerance :
    (∀ (st : DbPy.St) (X : String), X ≠ "" → X ∈ st.server.dbs →
      DbPy.createDb st (some X) true = .ok (DbPy.connectS st none)) ∧
    (∀ (st : DbPy.St) (X : String), X ≠ "" → X ∈ st.server.dbs →
      DbPy.createDb st (some X) false
        = .error ⟨DbPy.DB_EXISTS,
            ["Database Error [1007]: Cant create database; database exists."]⟩) ∧
    (∀ (st : DbPy.St) (n : String) (mayExist : Bool) (e : DbPy.DbErr),
      DbPy.execCommand0S (DbPy.connectS st none) (.createDbC n) = .error e →
      e.errCode ≠ DbPy.DB_EXISTS →
      DbPy.createDb st (some n) mayExist = .error e) := by
  refine ⟨?_, ?_, ?_⟩
  · intro st X hne hX
    simp [DbPy.createDb, DbPy.execCommand0S, DbPy.execCommandS,
      DbPy.runCmd, hne, connectS_server _ _, hX, DbPy.mapExecErr,
      DbPy.mysqlDbExistError, DbPy.DB_EXISTS]
  · intro st X hne hX
    simp [DbPy.createDb, DbPy.execCommand0S, DbPy.execCommandS,
      DbPy.runCmd, hne, connectS_server _ _, hX, DbPy.mapExecErr,
      DbPy.mysqlDbExistError]
    rfl
  · intro st n mayExist e hexec hne
    simp [DbPy.createDb, hexec, hne]

/-- C5 witness. -/
theorem createDb_mayExist_tolerance_witness :
    DbPy.createDb ⟨none, ⟨["X"], []⟩⟩ (some "X") true
      = .ok (DbPy.connectS ⟨none, ⟨["X"], []⟩⟩ none) ∧
    DbPy.createDb ⟨none, ⟨["X"], []⟩⟩ (some "X") false
      = .error ⟨DbPy.DB_EXISTS,
          ["Database Error [1007]: Cant create database; database exists."]⟩ ∧
    DbPy.createDb ⟨none, ⟨["X"], []⟩⟩ (some "") true
      = .error ⟨DbPy.SERVER_ERROR,
          ["Database Error [1064]: You have an error in your SQL syntax."]⟩ :=
  ⟨createDb_mayExist_tolerance.1 ⟨none, ⟨["X"], []⟩⟩ "X" (by decide) (by decide),
   createDb_mayExist_tolerance.2.1 ⟨none, ⟨["X"], []⟩⟩ "X" (by decide) (by decide),
   createDb_mayExist_tolerance.2.2 ⟨none, ⟨["X"], []⟩⟩ "" true
     ⟨DbPy.SERVER_ERROR,
       ["Database Error [1064]: You have an error in your SQL syntax."]⟩
     rfl (by decide)⟩

/-- C6 counterexample. -/
theorem disconnect_raises_on_close_error_cex :
    DbPy.disconnect ⟨some ⟨none, true, some (2013, "lost")⟩, ⟨[], []⟩⟩
      = .error ⟨DbPy.SERVER_DISCONN,
          ["Failed to disconnect. Error was: 2013: lost."]⟩ := by
  rfl

/-- C6 amended. -/
theorem disconnect_idempotent_amended :
    (∀ st : DbPy.St, DbPy.checkIsConnectedS st = false →
      DbPy.disconnect st = .ok st) ∧
    (∀ (st : DbPy.St) (c : DbPy.Conn), st.conn = some c → c.isOpen = true →
      c.closeErr = none →
      DbPy.disconnect st = .ok ⟨none, st.server⟩ ∧
      DbPy.checkIsConnectedS ⟨none, st.server⟩ = false ∧
      DbPy.disconnect ⟨none, st.server⟩ = .ok ⟨none, st.server⟩) ∧
    (∀ (st : DbPy.St) (c : DbPy.Conn) (e : Int × String),
      st.conn = some c → c.isOpen = true → c.closeErr = some e →
      DbPy.errCodeOf (DbPy.disconnect st) = some DbPy.SERVER_DISCONN) := by
  refine ⟨?_, ?_, ?_⟩
  · intro st h
    simp [DbPy.disconnect, h]
  · intro st c hconn hopen hclose
    obtain ⟨cn, srv⟩ := st
    simp only at hconn
    subst hconn
    refine ⟨?_, rfl, rfl⟩
    simp [DbPy.disconnect, DbPy.checkIsConnectedS, hopen,
      DbPy.closeConnection, hclose]
  · intro st c e hconn hopen hclose
    obtain ⟨cn, srv⟩ := st
    simp only at hconn
    subst hconn
    simp [DbPy.disconnect, DbPy.checkIsConnectedS, hopen,
      DbPy.closeConnection, hclose, DbPy.errCodeOf]

/-- C6 witness. -/
theorem disconnect_idempotent_amended_witness :
    DbPy.disconnect ⟨none, ⟨[], []⟩⟩ = .ok ⟨none, ⟨[], []⟩⟩ ∧
    (DbPy.disconnect ⟨some ⟨some "A", true, none⟩, ⟨["A"], []⟩⟩
      = .ok ⟨none, ⟨["A"], []⟩⟩ ∧
     DbPy.checkIsConnectedS ⟨none, ⟨["A"], []⟩⟩ = false ∧
     DbPy.disconnect ⟨none, ⟨["A"], []⟩⟩ = .ok ⟨none, ⟨["A"], []⟩⟩) ∧
    DbPy.errCodeOf (DbPy.disconnect
        ⟨some ⟨none, true, some (2006, "gone")⟩, ⟨[], []⟩⟩)
      = some DbPy.SERVER_DISCONN :=
  ⟨disconnect_idempotent_amended.1 ⟨none, ⟨[], []⟩⟩ rfl,
   disconnect_idempotent_amended.2.1
     ⟨some ⟨some "A", true, none⟩, ⟨["A"], []⟩⟩ ⟨some "A", true, none⟩
     rfl rfl rfl,
   disconnect_idempotent_amended.2.2
     ⟨some ⟨none, true, some (2006, "gone")⟩, ⟨[], []⟩⟩
     ⟨none, true, some (2006, "gone")⟩ (2006, "gone") rfl rfl rfl⟩

namespace DbPy

/-! ## Construction: `Db.__init__`, db.py lines 131-231

`__init__` is a pure computation from its parameters (plus the parsed
option file) to the initial wrapper state or a raised `DbException`; it
makes no driver call.  The option file is abstracted as its parse result:
`Db._parseOptionFile` (lines 702-729) reads the `[client]` section and
returns only the keys present there (config values are never `None`); a
missing file raises `INVALID_OPT_FILE`. -/

/-- Values the option file contributes: each field is `some` exactly when
the `[client]` section has the key; `port` is shown after the `int(...)`
conversion applied at lines 175/195. -/
structure OptRet where
  socket : Option String
  host : Option String
  port : Option Int
  user : Option String
  password : Option String
deriving DecidableEq, Repr

/-- Constructor parameters.  `optionFile = none`: no path given;
`some none`: a path whose file is missing (raises `INVALID_OPT_FILE`);
`some (some r)`: a path parsing to `r`. -/
structure InitParams where
  user : Option String
  passwd : Option String
  host : Option String
  port : Option Int
  socket : Option String
  optionFile : Option (Option OptRet)
  local_infile : Int
  preferTcp : Bool
deriving DecidableEq, Repr

/-- The assembled `self._kwargs`: a field is `some` exactly when the key
was stored.  `passwd` is doubly optional because `passwd=None` is stored
verbatim when an explicit user is given (line 184). -/
structure Kwargs where
  host : Option String
  port : Option Int
  unix_socket : Option String
  user : Option String
  passwd : Option (Option String)
  local_infile : Int
deriving DecidableEq, Repr

/-- `self._connProt`. -/
inductive ConnProt
  | tcp
  | sock
deriving DecidableEq, Repr

/-- Transport and credential resolution, db.py lines 166-206: explicit
host/port wins when `preferTcp` or no explicit socket; else explicit
socket; only when no transport was chosen yet, the same precedence among
the option-file values; user and password fall back to the option file
only when no explicit user was given. -/
def resolveKwargs (p : InitParams) : Except DbErr (Kwargs × Option ConnProt) :=
  let kw0 : Kwargs := ⟨none, none, none, none, none, p.local_infile⟩
  let s1 :=
    if p.host.isSome ∧ p.port.isSome ∧ (p.preferTcp ∨ p.socket.isNone) then
      ({ kw0 with host := p.host, port := p.port }, some ConnProt.tcp)
    else (kw0, (none : Option ConnProt))
  let s2 :=
    if s1.1.host.isNone ∧ p.socket.isSome then
      ({ s1.1 with unix_socket := p.socket }, some ConnProt.sock)
    else s1
  let kw3 :=
    if p.user.isSome then { s2.1 with user := p.user, passwd := some p.passwd }
    else s2.1
  match p.optionFile with
  | none => .ok (kw3, s2.2)
  | some none => .error ⟨INVALID_OPT_FILE, ["optionFile"]⟩
  | some (some ret) =>
      let s4 :=
        if s2.2 = none then
          if ret.host.isSome ∧ ret.port.isSome
              ∧ (p.preferTcp ∨ ret.socket.isNone) then
            ({ kw3 with host := ret.host, port := ret.port },
              some ConnProt.tcp)
          else if ret.socket.isSome then
            ({ kw3 with unix_socket := ret.socket }, some ConnProt.sock)
          else (kw3, s2.2)
        else (kw3, s2.2)
      let kw5 :=
        if ret.user.isSome ∧ p.user.isNone then
          { s4.1 with
            user := ret.user,
            passwd := (match ret.password with
                       | some pw => some (some pw)
                       | none => s4.1.passwd) }
        else s4.1
      .ok (kw5, s4.2)

/-- `Db.__init__` (db.py lines 131-231): resolve, then validate.  A missing
transport raises `MISSING_CON_INFO` (line 211), a missing user raises
`MISSING_CON_INFO` (line 216; the `"user" is self._kwargs` conjunct of line
214 is identically false, so the check is key presence only); the password
cleanup of lines 219-220 tests the key `"password"`, which is never stored
(values live under `"passwd"`), and is therefore a no-op; `"localhost"` is
rewritten to `127.0.0.1` (lines 222-223); a stored port outside
`[1, 65535]` raises `MISSING_CON_INFO` (lines 225-231). -/
def dbInit (p : InitParams) : Except DbErr (Kwargs × ConnProt) :=
  match resolveKwargs p with
  | .error e => .error e
  | .ok (kw, oprot) =>
      match oprot with
      | none => .error ⟨MISSING_CON_INFO, ["invalid socket and host name"]⟩
      | some prot =>
          if kw.user = none then
            .error ⟨MISSING_CON_INFO, ["invalid username"]⟩
          else
            let kw := if kw.host = some "localhost"
                      then { kw with host := some "127.0.0.1" } else kw
            match kw.port with
            | some q =>
                if q < 1 ∨ q > 65535 then
                  .error ⟨MISSING_CON_INFO,
                    ["invalid port number, must be within 1-65535"]⟩
                else .ok (kw, prot)
            | none => .ok (kw, prot)

/-- C7: whenever construction resolves the connection arguments with a
stored TCP port outside [1, 65535] — whether that port was passed
explicitly or came from the option file — `__init__` fails with the
`MISSING_CON_INFO` kind.  No connection attempt is involved: `dbInit` is a
pure function of the parameters and performs no driver call. -/
theorem init_invalid_port_rejected (p : DbPy.InitParams) (kw : DbPy.Kwargs)
    (oprot : Option DbPy.ConnProt) (q : Int)
    (hres : DbPy.resolveKwargs p = .ok (kw, oprot))
    (hprot : oprot = some DbPy.ConnProt.tcp)
    (hport : kw.port = some q) (hbad : q < 1 ∨ q > 65535) :
    DbPy.errCodeOf (DbPy.dbInit p) = some DbPy.MISSING_CON_INFO := by
  by_cases hu : kw.user = none
  · simp [DbPy.dbInit, hres, hprot, hu, DbPy.errCodeOf]
  · have hport2 : (if kw.host = some "localhost"
        then { kw with host := some "127.0.0.1" } else kw).port = some q := by
      split <;> simpa using hport
    simp [DbPy.dbInit, hres, hprot, hu, hport2, hbad, DbPy.errCodeOf]

end DbPy

/-- Witness for `DbPy.init_invalid_port_rejected`: an explicit port 99999
(with user and host), and an option file providing host, port 99999 and
user while nothing is passed explicitly. -/
theorem init_invalid_port_rejected_witness :
    DbPy.errCodeOf (DbPy.dbInit
        ⟨some "u", some "", some "h", some 99999, none, none, 0, false⟩)
      = some DbPy.MISSING_CON_INFO ∧
    DbPy.errCodeOf (DbPy.dbInit
        ⟨none, none, none, none, none,
         some (some ⟨none, some "h", some 99999, some "u", none⟩), 0, false⟩)
      = some DbPy.MISSING_CON_INFO :=
  ⟨DbPy.init_invalid_port_rejected
      ⟨some "u", some "", some "h", some 99999, none, none, 0, false⟩
      ⟨some "h", some 99999, none, some "u", some (some ""), 0⟩
      (some DbPy.ConnProt.tcp) 99999 rfl rfl rfl (by decide),
   DbPy.init_invalid_port_rejected
      ⟨none, none, none, none, none,
       some (some ⟨none, some "h", some 99999, some "u", none⟩), 0, false⟩
      ⟨some "h", some 99999, none, some "u", none, 0⟩
      (some DbPy.ConnProt.tcp) 99999 rfl rfl rfl (by decide)⟩

namespace Pool

/-! ## `DbPool` (src/python/lsst/db/dbPool.py)

The pool maps names to entries holding the constructor kwargs (abstracted:
`Db(**kwargs)` only builds the object, it never connects), the check
frequency, the last-check timestamp (0 at insertion), and the lazily
created `Db` object.  The module hard-imports that `Db` from
`lsst/db/db.py` (dbPool.py line 37), and that class defines
`checkIsConnected` but no `isConnected`; the stale-entry check branch of
`getConn` nevertheless calls `db.isConnected()` (line 123), so taking that
branch raises a Python `AttributeError` before any probe or reconnect. -/

/-- Failures out of `getConn`/`addConn`: the two `DbPoolException` codes
(ENTRY_NOT_FOUND = 1600, ENTRY_EXISTS = 1605, dbPool.py lines 42-44), and
the `AttributeError` raised when a method the imported `Db` class does not
define is looked up. -/
inductive PoolErr
  | entryExists (name : String)
  | entryNotFound (name : String)
  | attributeError (attr : String)
deriving DecidableEq, Repr

/-- The object `Db(**entry.kwargs)` constructs — the `Db` of
`lsst/db/db.py`, opaque to the pool, which only stores and returns it; it
has no `isConnected` attribute. -/
structure DbObj where
deriving DecidableEq, Repr

/-- `DbEntry` (dbPool.py lines 48-53). -/
structure DbEntry where
  checkFreq : Int
  lastChecked : Int
  dbObj : Option DbObj
deriving DecidableEq, Repr

/-- `self._pool`. -/
abbrev PoolMap := List (String × DbEntry)

/-- Replace the entry stored under `n`. -/
def update (pool : PoolMap) (n : String) (e : DbEntry) : PoolMap :=
  pool.map (fun p => if p.1 = n then (n, e) else p)

/-- `DbPool.addConn` (dbPool.py lines 73-91): `ENTRY_EXISTS` when the name
is already present, else a new entry with `lastChecked = 0` and no `Db`
object yet. -/
def addConn (pool : PoolMap) (cName : String) (checkFreq : Int) :
    Except PoolErr PoolMap :=
  if (pool.lookup cName).isSome then .error (.entryExists cName)
  else .ok (pool ++ [(cName, ⟨checkFreq, 0, none⟩)])

/-- `DbPool.getConn` (dbPool.py lines 104-127): `ENTRY_NOT_FOUND` when the
name is absent.  On first access (`entry.dbObj is None`) the `Db` object is
constructed — never connected — and returned, with no liveness check, no
connect, and `lastChecked` left untouched.  Otherwise, when
`checkFreq != -1` and more than `checkFreq` seconds elapsed since
`lastChecked`, the branch evaluates `db.isConnected()` (line 123); the
imported `Db` class has no such attribute, so the lookup raises
`AttributeError` before anything is probed, reconnected or re-stamped.
Only a fresh or recently-stamped entry is returned as is. -/
def getConn (pool : PoolMap) (cName : String) (now : Int) :
    Except PoolErr (PoolMap × DbObj) :=
  match pool.lookup cName with
  | none => .error (.entryNotFound cName)
  | some entry =>
      match entry.dbObj with
      | none =>
          let db : DbObj := ⟨⟩
          .ok (update pool cName { entry with dbObj := some db }, db)
      | some db =>
          if entry.checkFreq ≠ -1 ∧ now - entry.lastChecked > entry.checkFreq
          then .error (.attributeError "isConnected")
          else .ok (pool, db)

end Pool

/-- C8 counterexample: add an entry (check interval 600, never checked) and
call `getConn` much later than the interval: the call returns the freshly
constructed `Db` object with no liveness verification, no reconnect, and
`lastChecked` still 0; and on the next access, when the entry does hold a
`Db` object and the stale timer has expired, the check branch fails with an
`AttributeError` on the undefined `isConnected` — so on neither path does
`getConn` verify liveness and lazily reconnect before returning, as the
claim states. -/
theorem getConn_first_access_no_check_cex :
    Pool.addConn [] "a" 600 = .ok [("a", ⟨600, 0, none⟩)] ∧
    Pool.getConn [("a", ⟨600, 0, none⟩)] "a" 1000000
      = .ok ([("a", ⟨600, 0, some ⟨⟩⟩)], ⟨⟩) ∧
    Pool.getConn [("a", ⟨600, 0, some ⟨⟩⟩)] "a" 1000000
      = .error (.attributeError "isConnected") := by
  exact ⟨rfl, rfl, rfl⟩

/-- C8 amended: `addConn` fails with ENTRY_EXISTS exactly when the name is
present, and `getConn` fails with ENTRY_NOT_FOUND exactly when the name is
absent; but `getConn` never verifies liveness or reconnects: on first
access to a present entry it only constructs the `Db` object and returns it
(no check, no connect, `lastChecked` left at 0), and on a present entry
whose `Db` object exists, whose check interval is not -1 and whose last
check is more than the interval ago, the check branch calls
`db.isConnected()` — a method the imported `Db` class does not define — and
so raises an `AttributeError` before any probe, reconnect or timestamp
update. -/
theorem dbPool_contract_amended :
    (∀ (pool : Pool.PoolMap) (n : String) (f : Int),
      (Pool.addConn pool n f = .error (.entryExists n)) ↔
        (pool.lookup n).isSome = true) ∧
    (∀ (pool : Pool.PoolMap) (n : String) (now : Int),
      (Pool.getConn pool n now = .error (.entryNotFound n)) ↔
        pool.lookup n = none) ∧
    (∀ (pool : Pool.PoolMap) (n : String) (entry : Pool.DbEntry)
        (db : Pool.DbObj) (now : Int),
      pool.lookup n = some entry → entry.dbObj = some db →
      entry.checkFreq ≠ -1 → now - entry.lastChecked > entry.checkFreq →
      Pool.getConn pool n now = .error (.attributeError "isConnected")) ∧
    (∀ (pool : Pool.PoolMap) (n : String) (entry : Pool.DbEntry)
        (now : Int),
      pool.lookup n = some entry → entry.dbObj = none →
      Pool.getConn pool n now =
        .ok (Pool.update pool n { entry with dbObj := some ⟨⟩}, ⟨⟩)) := by
  refine ⟨?_, ?_, ?_, ?_⟩
  · intro pool n f
    constructor
    · intro he
      by_cases h : (pool.lookup n).isSome
      · exact h
      · simp [Pool.addConn, h] at he
    · intro h
      simp [Pool.addConn, h]
  · intro pool n now
    constructor
    · intro he
      cases hl : pool.lookup n with
      | none => rfl
      | some entry =>
          exfalso
          simp only [Pool.getConn, hl] at he
          cases hdb : entry.dbObj with
          | none => simp [hdb] at he
          | some db =>
              simp only [hdb] at he
              split at he
              · simp at he
              · simp at he
    · intro h
      simp [Pool.getConn, h]
  · intro pool n entry db now hl hdb hf ht
    simp only [Pool.getConn, hl, hdb]
    rw [if_pos ⟨hf, ht⟩]
  · intro pool n entry now hl hdb
    simp [Pool.getConn, hl, hdb]

/-- Witness for `dbPool_contract_amended` at concrete pools: a duplicate
`addConn`, a `getConn` miss, a stale entry with a constructed object, and a
first access. -/
theorem dbPool_contract_amended_witness :
    Pool.addConn [("a", ⟨600, 0, none⟩)] "a" 5
        = .error (.entryExists "a") ∧
    Pool.getConn [("a", ⟨600, 0, none⟩)] "b" 50
        = .error (.entryNotFound "b") ∧
    Pool.getConn [("a", ⟨600, 100, some ⟨⟩⟩)] "a" 1000
      = .error (.attributeError "isConnected") ∧
    Pool.getConn [("a", ⟨600, 0, none⟩)] "a" 1000
      = .ok (Pool.update [("a", ⟨600, 0, none⟩)] "a"
          ⟨600, 0, some ⟨⟩⟩, ⟨⟩) :=
  ⟨(dbPool_contract_amended.1 [("a", ⟨600, 0, none⟩)] "a" 5).2 (by decide),
   (dbPool_contract_amended.2.1 [("a", ⟨600, 0, none⟩)] "b" 50).2
     (by decide),
   dbPool_contract_amended.2.2.1 [("a", ⟨600, 100, some ⟨⟩⟩)] "a"
     ⟨600, 100, some ⟨⟩⟩ ⟨⟩ 1000 (by decide) rfl (by decide) (by decide),
   dbPool_contract_amended.2.2.2 [("a", ⟨600, 0, none⟩)] "a"
     ⟨600, 0, none⟩ 1000 (by decide) rfl⟩

namespace Helper

/-! ## `loadSqlScript` (src/python/lsst/db/testHelper.py, lines 116-157) -/

/-- The two failures: `PasswordNotAllowedError` (the spec's
PasswordRejected kind) and `CannotExecuteScriptError` (the spec's
ScriptExecutionFailed kind); the message of the latter is abbreviated. -/
inductive ScriptError
  | passwordNotAllowed
  | cannotExecuteScript (msg : String)
deriving DecidableEq, Repr

/-- The call's keyword connection parameters. -/
abbrev ConnKwargs := List (String × String)

def hasKey (k : String) (kw : ConnKwargs) : Bool := (kw.lookup k).isSome

/-- Result of `loadSqlScript` plus whether the mysql subprocess was
started. -/
structure LoadOutcome where
  spawned : Bool
  result : Except ScriptError Unit
deriving Repr

/-- `loadSqlScript` (testHelper.py lines 116-157): a `passwd` key among the
connection parameters is rejected with `PasswordNotAllowedError` before the
command line is even assembled; otherwise the mysql client is spawned with
the script as standard input (`exitCode` is what `subprocess.call`
returns), and a non-zero exit raises `CannotExecuteScriptError`. -/
def loadSqlScript (scriptPath : String) (kwargs : ConnKwargs)
    (exitCode : Int) : LoadOutcome :=
  if hasKey "passwd" kwargs then ⟨false, .error .passwordNotAllowed⟩
  else if exitCode ≠ 0 then
    ⟨true, .error (.cannotExecuteScript
      ("Failed to execute mysql < " ++ scriptPath))⟩
  else ⟨true, .ok ()⟩

end Helper

/-- C9: a password supplied through the call's connection parameters makes
`loadSqlScript` fail with the PasswordRejected kind with no subprocess
spawned, whatever the driver would have done; without one, a non-zero exit
status of the spawned mysql client fails with the ScriptExecutionFailed
kind. -/
theorem loadSqlScript_password_and_exit :
    (∀ (sp : String) (kw : Helper.ConnKwargs) (exit : Int),
      Helper.hasKey "passwd" kw = true →
      Helper.loadSqlScript sp kw exit
        = ⟨false, .error .passwordNotAllowed⟩) ∧
    (∀ (sp : String) (kw : Helper.ConnKwargs) (exit : Int),
      Helper.hasKey "passwd" kw = false → exit ≠ 0 →
      Helper.loadSqlScript sp kw exit
        = ⟨true, .error (.cannotExecuteScript
            ("Failed to execute mysql < " ++ sp))⟩) := by
  constructor
  · intro sp kw exit h
    simp [Helper.loadSqlScript, h]
  · intro sp kw exit h hz
    simp [Helper.loadSqlScript, h, hz]

/-- Witness for `loadSqlScript_password_and_exit`: a call passing `passwd`
(rejected, not spawned, regardless of the would-be exit code), and a
password-free call whose mysql client exits with 1. -/
theorem loadSqlScript_password_and_exit_witness :
    Helper.loadSqlScript "/tmp/s.sql" [("user", "u"), ("passwd", "p")] 0
      = ⟨false, .error .passwordNotAllowed⟩ ∧
    Helper.loadSqlScript "/tmp/s.sql" [("user", "u")] 1
      = ⟨true, .error (.cannotExecuteScript
          ("Failed to execute mysql < " ++ "/tmp/s.sql"))⟩ :=
  ⟨loadSqlScript_password_and_exit.1 "/tmp/s.sql"
     [("user", "u"), ("passwd", "p")] 0 (by decide),
   loadSqlScript_password_and_exit.2 "/tmp/s.sql" [("user", "u")] 1
     (by decide) (by decide)⟩
